import Mathlib

/-!
Verification of the product-crud-app authentication and product-routing
logic (`src/product_app/auth.py`, `src/product_app/product_apiroute.py`),
as a shallow embedding.  The relational store is modelled as an explicit
`Store` value threaded through the handlers; the external collaborators
(the Argon2 password hasher from passlib and the JOSE token codec), and
the ORM record classes from the repository's `db_model.py` (absent from
the sources), are modelled from the specification's boundary contracts.
Time is modelled in whole seconds as `Nat`.
-/

namespace ProductApp

/-- Modelled from the spec: the `User` ORM record of the missing
`db_model.py` — "unique numeric id, unique username (string), optional
email (string), password hash (string, opaque), active flag (bool),
admin flag (bool)". -/
structure User where
  id : Nat
  username : String
  email : Option String
  hashed_password : String
  is_active : Bool
  is_superuser : Bool
deriving Repr, DecidableEq

/-- Modelled from the spec and `model.py`: the `Product` record —
"numeric id (caller-supplied on create), name, description, price,
quantity".  Price carries no arithmetic in the code, so it is embedded
as `Rat`. -/
structure Product where
  id : Int
  name : String
  description : String
  price : Rat
  quantity : Int
deriving Repr, DecidableEq

/-- The state of the Credential Store / product table, standing for the
relational database the handlers read and write through a session. -/
structure Store where
  users : List User
  products : List Product
deriving Repr, DecidableEq

/-! ## Password hasher (external collaborator) -/

/-- Modelled from the spec: the passlib/Argon2 hashing collaborator is
external; its boundary contract is "one-way hash + verify".  A hash is
embedded as the Argon2 marker followed by the plaintext, which keeps the
hash–verify pairing and the well-formed-hash format observable. -/
def get_password_hash (password : String) : String :=
  "$argon2id$" ++ password

/-- A string is a well-formed Argon2 hash when it carries the Argon2
format marker, i.e. when it is a possible output of `get_password_hash`. -/
def isWellFormedHash (h : String) : Bool :=
  "$argon2id$".data.isPrefixOf h.data

/-- Modelled from the spec: the collaborator's verify operation,
"constant-time-safe comparison ...; never throws on malformed hash,
returns false" — a total Boolean function. -/
def pwd_context_verify (plain_password hashed_password : String) : Bool :=
  hashed_password == get_password_hash plain_password

/-- `auth.py::verify_password` — delegates to the hashing collaborator. -/
def verify_password (plain_password hashed_password : String) : Bool :=
  pwd_context_verify plain_password hashed_password

/-! ## Token codec (external collaborator) and token issuance -/

/-- A JSON claim value as it appears in the token payloads of this app. -/
inductive ClaimValue where
  | str (s : String)
  | boolean (b : Bool)
  | nat (n : Nat)
deriving Repr, DecidableEq

/-- A claims mapping: an insertion-ordered association list, the
embedding of the Python dict passed to `jwt.encode`. -/
abbrev Claims := List (String × ClaimValue)

/-- `payload.get(k)`: first binding of key `k`, if any. -/
def Claims.get (c : Claims) (k : String) : Option ClaimValue :=
  (c.find? (fun p => p.1 == k)).map Prod.snd

/-- `dict.update({k: v})`: replace the binding of `k` in place when the
key is present, otherwise append it (Python dicts keep insertion order). -/
def Claims.setClaim (c : Claims) (k : String) (v : ClaimValue) : Claims :=
  if c.any (fun p => p.1 == k) then
    c.map (fun p => if p.1 == k then (k, v) else p)
  else
    c ++ [(k, v)]

/-- `auth.py`: the process-wide signing secret (a placeholder value). -/
def SECRET_KEY : String := "change-me-to-a-random-secret-in-production"

/-- `auth.py`: token lifetime in minutes. -/
def ACCESS_TOKEN_EXPIRE_MINUTES : Nat := 60

/-- Modelled from the spec: a signed compact token of the JOSE codec,
carrying its claims payload and the key it was signed with (a tampered
or foreign token is one whose `sig` differs from the verifier's key). -/
structure Token where
  payload : Claims
  sig : String
deriving Repr, DecidableEq

/-- The codec's decode failure (signature invalid, malformed, expired). -/
inductive JWTError where
  | invalid
deriving Repr, DecidableEq

/-- Modelled from the spec: `jwt.decode` of the JOSE collaborator —
"decodes and checks the signature and expiry": rejects a token whose
signature key differs, and a token whose `exp` is not in the future
("the current time must be strictly before `exp`"); a payload with no
`exp` claim is not expiry-checked. -/
def jwt_decode (token : Token) (key : String) (now : Nat) :
    Except JWTError Claims :=
  if token.sig == key then
    match token.payload.get "exp" with
    | some (ClaimValue.nat e) =>
        if now < e then Except.ok token.payload else Except.error JWTError.invalid
    | some _ => Except.error JWTError.invalid
    | none => Except.ok token.payload
  else
    Except.error JWTError.invalid

/-- `auth.py::create_access_token` — copies the claims dict, sets
`exp` to now plus the delta (default 60 minutes), and signs with the
process-wide secret. -/
def create_access_token (data : Claims) (expires_delta : Option Nat)
    (now : Nat) : Token :=
  let expire := now + expires_delta.getD (ACCESS_TOKEN_EXPIRE_MINUTES * 60)
  let to_encode := Claims.setClaim data "exp" (ClaimValue.nat expire)
  { payload := to_encode, sig := SECRET_KEY }

/-- The claims dict built at login and passed to `create_access_token`:
`{"sub": username, "is_superuser": is_admin}` (the spec's `issue_token`). -/
def issue_token (username : String) (is_admin : Bool) (now : Nat) : Token :=
  create_access_token
    [("sub", ClaimValue.str username), ("is_superuser", ClaimValue.boolean is_admin)]
    none now

/-! ## Auth service -/

/-- An HTTP error response (the embedding of a raised `HTTPException`). -/
structure HTTPError where
  status_code : Nat
  detail : String
deriving Repr, DecidableEq

/-- `auth.py`: the single 401 raised by every token-resolution failure. -/
def credentials_exception : HTTPError :=
  { status_code := 401, detail := "Could not validate credentials" }

/-- `auth.py::require_admin`'s 403 response. -/
def forbidden_exception : HTTPError :=
  { status_code := 403, detail := "Admin privileges required" }

/-- `model.py::TokenData` as constructed in `get_current_user`, after
the `username is None` check has passed. -/
structure TokenData where
  username : String
  is_superuser : Bool
deriving Repr, DecidableEq

/-- `payload.get("sub")` read as an optional string subject. -/
def getStrClaim : Option ClaimValue → Option String
  | some (ClaimValue.str s) => some s
  | _ => none

/-- `payload.get("is_superuser", False)` read as a Bool with default. -/
def getBoolClaim (default : Bool) : Option ClaimValue → Bool
  | some (ClaimValue.boolean b) => b
  | _ => default

/-- `auth.py::get_user_by_username` — `.filter(username == u).first()`. -/
def get_user_by_username (st : Store) (username : String) : Option User :=
  st.users.find? (fun u => u.username == username)

/-- Fresh primary key the database assigns to a newly inserted user. -/
def nextUserId (st : Store) : Nat :=
  st.users.foldl (fun m u => max m (u.id + 1)) 1

/-- `model.py::UserCreate` registration input. -/
structure UserCreate where
  username : String
  email : Option String
  password : String
deriving Repr, DecidableEq

/-- `auth.py::create_user` — hashes the password and inserts a new
active user row; returns the refreshed row and the new store state. -/
def create_user (st : Store) (user_in : UserCreate) (is_superuser : Bool) :
    User × Store :=
  let hashed := get_password_hash user_in.password
  let db_user : User :=
    { id := nextUserId st
      username := user_in.username
      email := user_in.email
      hashed_password := hashed
      is_active := true
      is_superuser := is_superuser }
  (db_user, { st with users := st.users ++ [db_user] })

/-- `auth.py::authenticate_user` — returns `none` both when the
username is absent and when password verification fails. -/
def authenticate_user (st : Store) (username password : String) :
    Option User :=
  match get_user_by_username st username with
  | none => none
  | some user =>
      if verify_password password user.hashed_password then some user else none

/-- The decode-and-extract step of `auth.py::get_current_user` (the
`try` block): decode the token, read `sub` and `is_superuser`, and
raise the credentials exception on any decode failure or missing
subject (the spec's `verify_token`). -/
def verify_token (token : Token) (now : Nat) : Except HTTPError TokenData :=
  match jwt_decode token SECRET_KEY now with
  | Except.error _ => Except.error credentials_exception
  | Except.ok payload =>
      match getStrClaim (Claims.get payload "sub") with
      | none => Except.error credentials_exception
      | some username =>
          Except.ok
            { username := username
              is_superuser := getBoolClaim false (Claims.get payload "is_superuser") }

/-- `auth.py::get_current_user` — verify the token, then look the
subject up in the store; a missing subject raises the same
credentials exception. -/
def get_current_user (token : Token) (st : Store) (now : Nat) :
    Except HTTPError User :=
  match verify_token token now with
  | Except.error e => Except.error e
  | Except.ok token_data =>
      match get_user_by_username st token_data.username with
      | none => Except.error credentials_exception
      | some user => Except.ok user

/-- `auth.py::require_admin` — resolve the caller, then reject a
non-admin with 403. -/
def require_admin (token : Token) (st : Store) (now : Nat) :
    Except HTTPError User :=
  match get_current_user token st now with
  | Except.error e => Except.error e
  | Except.ok current_user =>
      if current_user.is_superuser then Except.ok current_user
      else Except.error forbidden_exception

/-- `auth.py::register` — reject a taken username with 400 before any
write, otherwise create the user (non-admin). -/
def register (user_in : UserCreate) (st : Store) :
    Except HTTPError (User × Store) :=
  match get_user_by_username st user_in.username with
  | some _ => Except.error { status_code := 400, detail := "Username already registered" }
  | none => Except.ok (create_user st user_in false)

/-- `model.py::Token` — the login response carrying the bearer token. -/
structure TokenResponse where
  access_token : Token
  token_type : String
deriving Repr, DecidableEq

/-- `auth.py::login_for_access_token` — authenticate, 401 on failure,
otherwise issue a token over `{sub, is_superuser}`. -/
def login_for_access_token (st : Store) (username password : String)
    (now : Nat) : Except HTTPError TokenResponse :=
  match authenticate_user st username password with
  | none =>
      Except.error { status_code := 401, detail := "Incorrect username or password" }
  | some user =>
      Except.ok
        { access_token := issue_token user.username user.is_superuser now
          token_type := "bearer" }

/-! ## Authorized product router (`product_apiroute.py`) -/

/-- The body of a 200 response from a product route handler. -/
inductive RouteResponse where
  | productJson (p : Product)
  | productList (ps : List Product)
  | text (s : String)
  | errorJson (msg : String)
deriving Repr, DecidableEq

/-- `product_apiroute.py::get_products` — open read, no dependency on
any caller identity. -/
def get_products (st : Store) : RouteResponse :=
  RouteResponse.productList st.products

/-- `product_apiroute.py::get_product_by_id` — open read; first row
with the id, or the not-found text. -/
def get_product_by_id (id : Int) (st : Store) : RouteResponse :=
  match st.products.find? (fun p => p.id == id) with
  | some product => RouteResponse.productJson product
  | none => RouteResponse.text "Product not found!!"

/-- Replace the first product row matching `id` with `updated` (the
ORM updates the single row returned by `.first()`). -/
def updateFirst (ps : List Product) (id : Int) (updated : Product) :
    List Product :=
  match ps with
  | [] => []
  | p :: rest =>
      if p.id == id then updated :: rest else p :: updateFirst rest id updated

/-- Delete the first product row matching `id`. -/
def deleteFirst (ps : List Product) (id : Int) : List Product :=
  match ps with
  | [] => []
  | p :: rest => if p.id == id then rest else p :: deleteFirst rest id

/-- `product_apiroute.py::add_product` — the `require_admin`
dependency runs first and short-circuits on error; the handler then
re-checks `current_user.is_superuser` before inserting. -/
def add_product (product : Product) (token : Token) (st : Store)
    (now : Nat) : Except HTTPError (RouteResponse × Store) :=
  match require_admin token st now with
  | Except.error e => Except.error e
  | Except.ok current_user =>
      if current_user.is_superuser then
        Except.ok (RouteResponse.productJson product,
          { st with products := st.products ++ [product] })
      else
        Except.ok (RouteResponse.errorJson "Admin privileges required to add a product.", st)

/-- `product_apiroute.py::update_product` — guard, handler-level admin
re-check, then lookup-before-write: an absent id yields the not-found
body with no write. -/
def update_product (id : Int) (updated_product : Product) (token : Token)
    (st : Store) (now : Nat) : Except HTTPError (RouteResponse × Store) :=
  match require_admin token st now with
  | Except.error e => Except.error e
  | Except.ok current_user =>
      if !current_user.is_superuser then
        Except.ok (RouteResponse.errorJson "Admin privileges required to update a product.", st)
      else
        match st.products.find? (fun p => p.id == id) with
        | some _ =>
            Except.ok (RouteResponse.text "Product Updated Successfully!!",
              { st with products := updateFirst st.products id updated_product })
        | none => Except.ok (RouteResponse.errorJson "Product not found!!", st)

/-- `product_apiroute.py::delete_product` — guard, handler-level admin
re-check, then lookup-before-delete: an absent id yields the not-found
text with no write. -/
def delete_product (id : Int) (token : Token) (st : Store) (now : Nat) :
    Except HTTPError (RouteResponse × Store) :=
  match require_admin token st now with
  | Except.error e => Except.error e
  | Except.ok current_user =>
      if !current_user.is_superuser then
        Except.ok (RouteResponse.errorJson "Admin privileges required to delete a product.", st)
      else
        match st.products.find? (fun p => p.id == id) with
        | some _ =>
            Except.ok (RouteResponse.text "Product deleted successfully!!",
              { st with products := deleteFirst st.products id })
        | none => Except.ok (RouteResponse.text "Product not found!!", st)

/-! ## Demo fixtures used by the witnesses -/

/-- A registered non-admin user. -/
def aliceUser : User :=
  { id := 1, username := "alice", email := none,
    hashed_password := get_password_hash "pw123", is_active := true,
    is_superuser := false }

/-- A registered admin user. -/
def rootUser : User :=
  { id := 2, username := "root", email := none,
    hashed_password := get_password_hash "s3cret", is_active := true,
    is_superuser := true }

/-- A small concrete store state. -/
def demoStore : Store := { users := [aliceUser, rootUser], products := [] }

/-- A concrete product payload. -/
def demoProduct : Product :=
  { id := 1, name := "pen", description := "blue pen", price := 2, quantity := 10 }

/-! ## Helper lemmas -/

/-- Every output of the hasher carries the Argon2 format marker. -/
theorem hash_wellFormed (p : String) :
    isWellFormedHash (get_password_hash p) = true := by
  simp [isWellFormedHash, get_password_hash]

/-- The payload built by `issue_token`: subject, admin flag, then the
appended expiry claim. -/
theorem issue_token_payload (u : String) (a : Bool) (now : Nat) :
    (issue_token u a now).payload =
      [("sub", ClaimValue.str u), ("is_superuser", ClaimValue.boolean a),
       ("exp", ClaimValue.nat (now + 3600))] := by
  simp [issue_token, create_access_token, Claims.setClaim, ACCESS_TOKEN_EXPIRE_MINUTES]

/-- Verifying a freshly issued token strictly before its expiry
recovers the subject and admin flag. -/
theorem verify_token_issue_ok (u : String) (a : Bool) (now t : Nat)
    (h : t < now + 3600) :
    verify_token (issue_token u a now) t =
      Except.ok { username := u, is_superuser := a } := by
  simp [verify_token, issue_token, create_access_token, jwt_decode, Claims.get,
    Claims.setClaim, getStrClaim, getBoolClaim, SECRET_KEY, ACCESS_TOKEN_EXPIRE_MINUTES,
    List.find?, h]

/-- Verifying a freshly issued token at or after its expiry fails with
the credentials exception. -/
theorem verify_token_issue_expired (u : String) (a : Bool) (now t : Nat)
    (h : now + 3600 ≤ t) :
    verify_token (issue_token u a now) t = Except.error credentials_exception := by
  simp [verify_token, issue_token, create_access_token, jwt_decode, Claims.get,
    Claims.setClaim, getStrClaim, getBoolClaim, SECRET_KEY, ACCESS_TOKEN_EXPIRE_MINUTES,
    List.find?, Nat.not_lt.mpr h]

/-- A successful `require_admin` means the caller resolved to that user
and the user's stored admin flag is set. -/
theorem require_admin_ok {token : Token} {st : Store} {now : Nat} {u : User}
    (h : require_admin token st now = Except.ok u) :
    get_current_user token st now = Except.ok u ∧ u.is_superuser = true := by
  unfold require_admin at h
  cases hcu : get_current_user token st now with
  | error e => rw [hcu] at h; cases h
  | ok cu =>
      rw [hcu] at h
      by_cases hs : cu.is_superuser = true
      · simp [hs] at h
        subst h
        exact ⟨rfl, hs⟩
      · simp [hs] at h

/-- After `setClaim`, reading the key back yields the new value. -/
theorem setClaim_get (c : Claims) (k : String) (v : ClaimValue) :
    Claims.get (Claims.setClaim c k v) k = some v := by
  unfold Claims.setClaim
  by_cases hany : c.any (fun p => p.1 == k) = true
  · rw [if_pos hany]
    induction c with
    | nil => cases hany
    | cons hd tl ih =>
        rw [List.any_cons] at hany
        rw [List.map_cons]
        unfold Claims.get
        cases hk : hd.1 == k with
        | true =>
            rw [if_pos rfl]
            simp [List.find?_cons]
        | false =>
            rw [if_neg (by simp)]
            simp only [List.find?_cons, hk]
            rw [hk, Bool.false_or] at hany
            exact ih hany
  · rw [if_neg hany]
    have hcnone : c.find? (fun p => p.1 == k) = none := by
      rw [List.find?_eq_none]
      intro x hx hpx
      exact hany (List.any_of_mem hx hpx)
    unfold Claims.get
    rw [List.find?_append, hcnone]
    simp [List.find?_cons]

/-! ## Claim theorems -/

/-- C2: for every plaintext input and every malformed (non-hash) second
argument, `verify_password` returns false; as a total Lean function it
can never raise. -/
theorem C2_verify_password_malformed_false (plain h : String)
    (hm : isWellFormedHash h = false) :
    verify_password plain h = false := by
  have hne : h ≠ get_password_hash plain := by
    intro he
    rw [he, hash_wellFormed plain] at hm
    cases hm
  simp [verify_password, pwd_context_verify, hne]

/-- Witness for C2 at a concrete malformed hash. -/
theorem C2_witness :
    isWellFormedHash "not-a-hash" = false
    ∧ verify_password "secret" "not-a-hash" = false :=
  ⟨by decide, C2_verify_password_malformed_false "secret" "not-a-hash" (by decide)⟩

/-- C3: issuing a token and verifying strictly before its expiry
returns the original subject and admin flag; verifying at or after the
expiry fails with the credentials (unauthorized) exception. -/
theorem C3_issue_then_verify (username : String) (is_admin : Bool) (now t : Nat) :
    (t < now + ACCESS_TOKEN_EXPIRE_MINUTES * 60 →
      verify_token (issue_token username is_admin now) t =
        Except.ok { username := username, is_superuser := is_admin })
    ∧ (now + ACCESS_TOKEN_EXPIRE_MINUTES * 60 ≤ t →
      verify_token (issue_token username is_admin now) t =
        Except.error credentials_exception) :=
  ⟨fun h => verify_token_issue_ok username is_admin now t h,
   fun h => verify_token_issue_expired username is_admin now t h⟩

/-- Witness for C3: a token issued at 5 verifies at 100 and is rejected
at 3605. -/
theorem C3_witness :
    verify_token (issue_token "alice" true 5) 100 =
      Except.ok { username := "alice", is_superuser := true }
    ∧ verify_token (issue_token "alice" true 5) 3605 =
      Except.error credentials_exception :=
  ⟨(C3_issue_then_verify "alice" true 5 100).1 (by decide),
   (C3_issue_then_verify "alice" true 5 3605).2 (by decide)⟩

/-- C4: `authenticate_user` returns the same `none` both when the
username is absent and when the password fails verification, and
returns the stored user exactly when the password verifies. -/
theorem C4_authenticate_uniform_failure (st : Store) (username password : String) :
    (get_user_by_username st username = none →
      authenticate_user st username password = none)
    ∧ (∀ u, get_user_by_username st username = some u →
        verify_password password u.hashed_password = false →
        authenticate_user st username password = none)
    ∧ (∀ u, get_user_by_username st username = some u →
        verify_password password u.hashed_password = true →
        authenticate_user st username password = some u) := by
  refine ⟨fun h => ?_, fun u hu hv => ?_, fun u hu hv => ?_⟩ <;>
    simp [authenticate_user, *]

/-- Witness for C4: wrong password and unknown username both yield
`none`; the right password yields the user. -/
theorem C4_witness :
    authenticate_user demoStore "alice" "wrong" = none
    ∧ authenticate_user demoStore "bob" "pw123" = none
    ∧ authenticate_user demoStore "alice" "pw123" = some aliceUser :=
  ⟨(C4_authenticate_uniform_failure demoStore "alice" "wrong").2.1 aliceUser
      (by decide) (by decide),
   (C4_authenticate_uniform_failure demoStore "bob" "pw123").1 (by decide),
   (C4_authenticate_uniform_failure demoStore "alice" "pw123").2.2 aliceUser
      (by decide) (by decide)⟩

/-- C5: registering a username that is already stored fails with the
400 duplicate-username error and never reaches `create_user`, so the
store (in particular the first registration's record) is untouched —
the request aborts before any write. -/
theorem C5_duplicate_username_rejected (st : Store) (user_in : UserCreate) (u : User)
    (hu : u ∈ st.users) (hname : u.username = user_in.username) :
    register user_in st =
      Except.error { status_code := 400, detail := "Username already registered" }
    ∧ ∀ r, register user_in st ≠ Except.ok r := by
  have hsome : (get_user_by_username st user_in.username).isSome = true := by
    rw [get_user_by_username, List.find?_isSome]
    exact ⟨u, hu, by simp [hname]⟩
  obtain ⟨v, hv⟩ := Option.isSome_iff_exists.mp hsome
  constructor
  · simp [register, hv]
  · intro r hr
    simp [register, hv] at hr

/-- Witness for C5: re-registering "alice" against the demo store. -/
theorem C5_witness :
    register { username := "alice", email := none, password := "x" } demoStore =
      Except.error { status_code := 400, detail := "Username already registered" } :=
  (C5_duplicate_username_rejected demoStore
    { username := "alice", email := none, password := "x" } aliceUser
    (by decide) rfl).1

/-- C6: for a product id absent from the store, `update_product` and
`delete_product` called by an authorized admin return the not-found
body as a 200 result (not a server error) with the store unchanged. -/
theorem C6_absent_id_not_found (token : Token) (st : Store) (now : Nat)
    (id : Int) (p : Product) (u : User)
    (hadmin : require_admin token st now = Except.ok u)
    (habsent : st.products.find? (fun q => q.id == id) = none) :
    update_product id p token st now =
      Except.ok (RouteResponse.errorJson "Product not found!!", st)
    ∧ delete_product id token st now =
      Except.ok (RouteResponse.text "Product not found!!", st) := by
  have hsup := (require_admin_ok hadmin).2
  constructor
  · simp [update_product, hadmin, hsup, habsent]
  · simp [delete_product, hadmin, hsup, habsent]

/-- Witness for C6: admin update/delete of absent id 5. -/
theorem C6_witness :
    update_product 5 demoProduct (issue_token "root" true 0) demoStore 0 =
      Except.ok (RouteResponse.errorJson "Product not found!!", demoStore)
    ∧ delete_product 5 (issue_token "root" true 0) demoStore 0 =
      Except.ok (RouteResponse.text "Product not found!!", demoStore) :=
  C6_absent_id_not_found (issue_token "root" true 0) demoStore 0 5 demoProduct
    rootUser rfl rfl

/-- C8: a token that verifies but whose subject is not stored resolves
to the same credentials exception as an invalid token (every
`verify_token` failure carries that same exception value), and
resolution succeeds exactly when the subject is stored. -/
theorem C8_resolution_requires_stored_subject (token : Token) (st : Store) (now : Nat) :
    (∀ td, verify_token token now = Except.ok td →
        get_user_by_username st td.username = none →
        get_current_user token st now = Except.error credentials_exception)
    ∧ (∀ e, verify_token token now = Except.error e →
        e = credentials_exception
        ∧ get_current_user token st now = Except.error credentials_exception)
    ∧ (∀ u, get_current_user token st now = Except.ok u →
        ∃ td, verify_token token now = Except.ok td
          ∧ get_user_by_username st td.username = some u) := by
  refine ⟨fun td h1 h2 => ?_, fun e he => ?_, fun u hu => ?_⟩
  · simp [get_current_user, h1, h2]
  · have hec : e = credentials_exception := by
      unfold verify_token at he
      cases hj : jwt_decode token SECRET_KEY now with
      | error je =>
          simp only [hj] at he
          exact (Except.error.inj he).symm
      | ok payload =>
          simp only [hj] at he
          cases hs : getStrClaim (Claims.get payload "sub") with
          | none =>
              simp only [hs] at he
              exact (Except.error.inj he).symm
          | some s => simp only [hs] at he; cases he
    subst hec
    exact ⟨rfl, by simp [get_current_user, he]⟩
  · unfold get_current_user at hu
    cases hv : verify_token token now with
    | error e => simp only [hv] at hu; cases hu
    | ok td =>
        simp only [hv] at hu
        cases hl : get_user_by_username st td.username with
        | none => simp only [hl] at hu; cases hu
        | some u2 =>
            simp only [hl] at hu
            cases hu
            exact ⟨td, rfl, hl⟩

/-- Witness for C8: a valid token for a subject not in the store. -/
theorem C8_witness :
    get_current_user (issue_token "ghost" false 0) demoStore 0 =
      Except.error credentials_exception :=
  (C8_resolution_requires_stored_subject (issue_token "ghost" false 0) demoStore 0).1
    { username := "ghost", is_superuser := false } rfl rfl

/-- C1: on the authorized router every write (create, update, delete)
is rejected with the 403 forbidden error whenever the bearer token
resolves to a non-admin stored user, a write can succeed only when the
resolved user's admin flag is true, and the read operations depend on
no caller identity and always produce a plain response. -/
theorem C1_writes_admin_gated_reads_open (token : Token) (st : Store) (now : Nat)
    (p : Product) (id : Int) :
    (∀ u, get_current_user token st now = Except.ok u → u.is_superuser = false →
      add_product p token st now = Except.error forbidden_exception
      ∧ update_product id p token st now = Except.error forbidden_exception
      ∧ delete_product id token st now = Except.error forbidden_exception)
    ∧ (∀ r, add_product p token st now = Except.ok r →
        ∃ u, get_current_user token st now = Except.ok u ∧ u.is_superuser = true)
    ∧ (∀ r, update_product id p token st now = Except.ok r →
        ∃ u, get_current_user token st now = Except.ok u ∧ u.is_superuser = true)
    ∧ (∀ r, delete_product id token st now = Except.ok r →
        ∃ u, get_current_user token st now = Except.ok u ∧ u.is_superuser = true)
    ∧ get_products st = RouteResponse.productList st.products
    ∧ (∀ pid : Int,
        (∃ q, st.products.find? (fun x => x.id == pid) = some q
           ∧ get_product_by_id pid st = RouteResponse.productJson q)
        ∨ (st.products.find? (fun x => x.id == pid) = none
           ∧ get_product_by_id pid st = RouteResponse.text "Product not found!!")) := by
  have hwrite : ∀ {β : Type} (body : User → Except HTTPError β) r,
      (match require_admin token st now with
       | Except.error e => Except.error e
       | Except.ok cu => body cu) = Except.ok r →
      ∃ u, get_current_user token st now = Except.ok u ∧ u.is_superuser = true := by
    intro β body r h
    cases hra : require_admin token st now with
    | error e => rw [hra] at h; cases h
    | ok cu => exact ⟨cu, require_admin_ok hra⟩
  refine ⟨fun u hcu hns => ?_, fun r h => ?_, fun r h => ?_, fun r h => ?_, rfl, fun pid => ?_⟩
  · have hra : require_admin token st now = Except.error forbidden_exception := by
      simp [require_admin, hcu, hns]
    exact ⟨by simp [add_product, hra], by simp [update_product, hra],
      by simp [delete_product, hra]⟩
  · exact hwrite _ r (by simpa [add_product] using h)
  · exact hwrite _ r (by simpa [update_product] using h)
  · exact hwrite _ r (by simpa [delete_product] using h)
  · cases hf : st.products.find? (fun x => x.id == pid) with
    | some q => exact Or.inl ⟨q, rfl, by simp [get_product_by_id, hf]⟩
    | none => exact Or.inr ⟨rfl, by simp [get_product_by_id, hf]⟩

/-- Witness for C1: alice (non-admin) is denied all three writes. -/
theorem C1_witness :
    add_product demoProduct (issue_token "alice" false 0) demoStore 0 =
      Except.error forbidden_exception
    ∧ update_product 5 demoProduct (issue_token "alice" false 0) demoStore 0 =
      Except.error forbidden_exception
    ∧ delete_product 5 (issue_token "alice" false 0) demoStore 0 =
      Except.error forbidden_exception :=
  (C1_writes_admin_gated_reads_open (issue_token "alice" false 0) demoStore 0
    demoProduct 5).1 aliceUser rfl rfl

/-- C7: a successful login issues a token whose claims are exactly
`{sub, is_superuser, exp: now + 60 minutes}` for the authenticated
user, and every token built by `create_access_token` carries the `exp`
claim. -/
theorem C7_login_token_claims_exact (st : Store) (username password : String)
    (now : Nat) (tr : TokenResponse)
    (h : login_for_access_token st username password now = Except.ok tr) :
    (∃ user, authenticate_user st username password = some user
      ∧ tr.access_token.payload =
          [("sub", ClaimValue.str user.username),
           ("is_superuser", ClaimValue.boolean user.is_superuser),
           ("exp", ClaimValue.nat (now + ACCESS_TOKEN_EXPIRE_MINUTES * 60))])
    ∧ (∀ data delta,
        Claims.get (create_access_token data delta now).payload "exp" =
          some (ClaimValue.nat (now + delta.getD (ACCESS_TOKEN_EXPIRE_MINUTES * 60)))) := by
  constructor
  · cases hauth : authenticate_user st username password with
    | none => simp [login_for_access_token, hauth] at h
    | some user =>
        refine ⟨user, rfl, ?_⟩
        simp only [login_for_access_token, hauth] at h
        cases h
        simpa [ACCESS_TOKEN_EXPIRE_MINUTES] using
          issue_token_payload user.username user.is_superuser now
  · intro data delta
    simpa [create_access_token] using
      setClaim_get data "exp"
        (ClaimValue.nat (now + delta.getD (ACCESS_TOKEN_EXPIRE_MINUTES * 60)))

/-- Witness for C7: alice's login at time 7. -/
theorem C7_witness :
    (∃ user, authenticate_user demoStore "alice" "pw123" = some user
      ∧ (issue_token "alice" false 7).payload =
          [("sub", ClaimValue.str user.username),
           ("is_superuser", ClaimValue.boolean user.is_superuser),
           ("exp", ClaimValue.nat (7 + ACCESS_TOKEN_EXPIRE_MINUTES * 60))])
    ∧ (∀ data delta,
        Claims.get (create_access_token data delta 7).payload "exp" =
          some (ClaimValue.nat (7 + delta.getD (ACCESS_TOKEN_EXPIRE_MINUTES * 60)))) :=
  C7_login_token_claims_exact demoStore "alice" "pw123" 7
    { access_token := issue_token "alice" false 7, token_type := "bearer" } rfl

/-- C9: once `require_admin` has succeeded, the in-handler non-admin
branches are unreachable: `add_product` takes the privileged insert
branch, and no handler can produce its "Admin privileges required"
response body. -/
theorem C9_handler_admin_branches_unreachable (token : Token) (st : Store) (now : Nat)
    (p : Product) (id : Int) (u : User)
    (h : require_admin token st now = Except.ok u) :
    add_product p token st now =
      Except.ok (RouteResponse.productJson p,
        { st with products := st.products ++ [p] })
    ∧ (∀ r st2, add_product p token st now = Except.ok (r, st2) →
        r ≠ RouteResponse.errorJson "Admin privileges required to add a product.")
    ∧ (∀ r st2, update_product id p token st now = Except.ok (r, st2) →
        r ≠ RouteResponse.errorJson "Admin privileges required to update a product.")
    ∧ (∀ r st2, delete_product id token st now = Except.ok (r, st2) →
        r ≠ RouteResponse.errorJson "Admin privileges required to delete a product.") := by
  have hsup := (require_admin_ok h).2
  refine ⟨by simp [add_product, h, hsup], fun r st2 hr => ?_, fun r st2 hr => ?_,
    fun r st2 hr => ?_⟩
  · simp [add_product, h, hsup] at hr
    simp [hr.1.symm]
  · simp only [update_product, h, hsup] at hr
    cases hf : st.products.find? (fun q => q.id == id) with
    | some q => simp [hf] at hr; simp [hr.1.symm]
    | none => simp [hf] at hr; simp [hr.1.symm]
  · simp only [delete_product, h, hsup] at hr
    cases hf : st.products.find? (fun q => q.id == id) with
    | some q => simp [hf] at hr; simp [hr.1.symm]
    | none => simp [hf] at hr; simp [hr.1.symm]

/-- Witness for C9: the admin's create takes the privileged branch. -/
theorem C9_witness :
    add_product demoProduct (issue_token "root" true 0) demoStore 0 =
      Except.ok (RouteResponse.productJson demoProduct,
        { demoStore with products := demoStore.products ++ [demoProduct] }) :=
  (C9_handler_admin_branches_unreachable (issue_token "root" true 0) demoStore 0
    demoProduct 5 rootUser rfl).1

/-- C10: two validly signed, non-expired tokens with the same subject
but arbitrary (possibly different) `is_superuser` claim values give
identical `get_current_user` and `require_admin` outcomes against the
same store — the embedded role claim never enters the authorization
decision. -/
theorem C10_token_role_claim_ignored (st : Store) (now : Nat) (s : String)
    (v1 v2 : ClaimValue) (e : Nat) (hne : now < e) :
    get_current_user
        { payload := [("sub", ClaimValue.str s), ("is_superuser", v1),
            ("exp", ClaimValue.nat e)], sig := SECRET_KEY } st now
      = get_current_user
        { payload := [("sub", ClaimValue.str s), ("is_superuser", v2),
            ("exp", ClaimValue.nat e)], sig := SECRET_KEY } st now
    ∧ require_admin
        { payload := [("sub", ClaimValue.str s), ("is_superuser", v1),
            ("exp", ClaimValue.nat e)], sig := SECRET_KEY } st now
      = require_admin
        { payload := [("sub", ClaimValue.str s), ("is_superuser", v2),
            ("exp", ClaimValue.nat e)], sig := SECRET_KEY } st now := by
  have hv : ∀ v : ClaimValue,
      verify_token
        { payload := [("sub", ClaimValue.str s), ("is_superuser", v),
            ("exp", ClaimValue.nat e)], sig := SECRET_KEY } now =
      Except.ok { username := s, is_superuser := getBoolClaim false (some v) } := by
    intro v
    simp [verify_token, jwt_decode, Claims.get, getStrClaim, List.find?, hne]
  have hcu :
      get_current_user
        { payload := [("sub", ClaimValue.str s), ("is_superuser", v1),
            ("exp", ClaimValue.nat e)], sig := SECRET_KEY } st now
      = get_current_user
        { payload := [("sub", ClaimValue.str s), ("is_superuser", v2),
            ("exp", ClaimValue.nat e)], sig := SECRET_KEY } st now := by
    simp only [get_current_user, hv]
  exact ⟨hcu, by simp only [require_admin, hcu]⟩

/-- Witness for C10: alice's tokens with opposite role claims behave
identically. -/
theorem C10_witness :
    get_current_user
        { payload := [("sub", ClaimValue.str "alice"),
            ("is_superuser", ClaimValue.boolean true),
            ("exp", ClaimValue.nat 3600)], sig := SECRET_KEY } demoStore 0
      = get_current_user
        { payload := [("sub", ClaimValue.str "alice"),
            ("is_superuser", ClaimValue.boolean false),
            ("exp", ClaimValue.nat 3600)], sig := SECRET_KEY } demoStore 0
    ∧ require_admin
        { payload := [("sub", ClaimValue.str "alice"),
            ("is_superuser", ClaimValue.boolean true),
            ("exp", ClaimValue.nat 3600)], sig := SECRET_KEY } demoStore 0
      = require_admin
        { payload := [("sub", ClaimValue.str "alice"),
            ("is_superuser", ClaimValue.boolean false),
            ("exp", ClaimValue.nat 3600)], sig := SECRET_KEY } demoStore 0 :=
  C10_token_role_claim_ignored demoStore 0 "alice" (ClaimValue.boolean true)
    (ClaimValue.boolean false) 3600 (by decide)

end ProductApp
